import Mathlib

/-
Verification of the iroh-ffi bridging layer against its specification.

The Rust sources are shallowly embedded:
* `src/src/gossip.rs`: the `Message` enum with its `as_*` accessors, the
  `Sender` (broadcast / broadcast_neighbors / cancel over a cancellation
  token), `Gossip::subscribe` (validation, native subscription, receiver
  task spawn) and the receiver task's event loop.
* `src/src/node.rs`: `NodeOptions`, `apply_options`, and the
  `persistent_with_options` / `memory_with_options` constructors.
* `src/src/lib.rs`: `path_to_key` / `key_to_path`.

External collaborators (the iroh gossip service, the tokio runtime, file
system and network) are modelled as explicit parameters carrying their
results; machine bytes are `Nat`, byte strings are `List Nat`, panics are
`Option.none`, fallible Rust functions return `Except String`.
-/

namespace IrohFfi

/-! ## gossip.rs: the Message enum -/

/-- Model of `MessageContent` (gossip.rs lines 96-102): the payload returned
by `Message::as_received`. -/
structure MessageContent where
  content : List Nat
  delivered_from : String
deriving DecidableEq

/-- Model of the `Message` enum (gossip.rs lines 15-32).  Byte payloads are
`List Nat`, node ids (already stringified by the source) are `String`. -/
inductive Message where
  | neighborUp (node : String)
  | neighborDown (node : String)
  | received (content : List Nat) (delivered_from : String)
  | lagged
  | error (msg : String)
deriving DecidableEq

/-- Model of the `MessageType` enum (gossip.rs lines 34-41). -/
inductive MessageType where
  | neighborUp
  | neighborDown
  | received
  | lagged
  | error
deriving DecidableEq

/-- Model of `Message::type` (gossip.rs lines 45-53). -/
def Message.type : Message → MessageType
  | .neighborUp _ => .neighborUp
  | .neighborDown _ => .neighborDown
  | .received _ _ => .received
  | .lagged => .lagged
  | .error _ => .error

/-- Model of `Message::as_neighbor_up` (gossip.rs lines 55-61); the `panic!`
on a wrong variant is modelled as `none`. -/
def Message.as_neighbor_up : Message → Option String
  | .neighborUp s => some s
  | _ => none

/-- Model of `Message::as_neighbor_down` (gossip.rs lines 63-69). -/
def Message.as_neighbor_down : Message → Option String
  | .neighborDown s => some s
  | _ => none

/-- Model of `Message::as_received` (gossip.rs lines 71-84). -/
def Message.as_received : Message → Option MessageContent
  | .received c f => some { content := c, delivered_from := f }
  | _ => none

/-- Model of `Message::as_error` (gossip.rs lines 86-92). -/
def Message.as_error : Message → Option String
  | .error s => some s
  | _ => none

/-! ## gossip.rs: Sender and the cancellation token

The `CancellationToken` shared between the `Sender` and the receiver task
is a one-way flag; the `Sender` is modelled by the state of that flag.  The
underlying `iroh_gossip::api::GossipSender` is an external collaborator:
the result of its `broadcast` / `broadcast_neighbors` call is passed in as
an explicit `Except` argument. -/

/-- Model of the `Sender` object's observable state (gossip.rs lines
222-227): the state of its cancellation token. -/
structure Sender where
  cancelled : Bool
deriving DecidableEq

/-- Model of `Sender::broadcast` (gossip.rs lines 231-241): locks the inner
gossip sender, forwards the message and maps the inner error.  Exactly as
in the source, the cancellation token is never consulted. -/
def Sender.broadcast (_s : Sender) (innerSend : Except String Unit) :
    Except String Unit :=
  match innerSend with
  | .ok _ => .ok ()
  | .error e => .error e

/-- Model of `Sender::broadcast_neighbors` (gossip.rs lines 243-253): same
shape as `broadcast`, again with no cancellation check. -/
def Sender.broadcast_neighbors (_s : Sender) (innerSend : Except String Unit) :
    Except String Unit :=
  match innerSend with
  | .ok _ => .ok ()
  | .error e => .error e

/-- Model of `Sender::cancel` (gossip.rs lines 255-263): fails if the token
is already cancelled, otherwise cancels it.  Returns the new token state. -/
def Sender.cancel (s : Sender) : Except String Sender :=
  if s.cancelled then .error "already closed"
  else .ok { cancelled := true }

/-! ## gossip.rs: the receiver task loop

The native stream (`iroh_gossip::api::EventStream`) yields items of type
`Option<Result<Event, _>>`; `None` is end of stream.  One iteration of the
`tokio::select! { biased; ... }` loop is modelled by a pair: the first
component says whether the cancellation branch fired at that iteration
(with `biased`, whenever the token is cancelled this branch wins even if an
event is simultaneously ready), the second is the stream item the other
branch would yield. -/

/-- Model of `iroh_gossip::api::Event` as consumed by the loop
(gossip.rs lines 170-196). -/
inductive GossipApiEvent where
  | neighborUp (node : String)
  | neighborDown (node : String)
  | received (content : List Nat) (delivered_from : String)
  | lagged
deriving DecidableEq

/-- One iteration's input to the biased select: did the cancellation branch
fire, and otherwise which stream item arrived. -/
abbrev LoopStep : Type := Bool × Option (Except String GossipApiEvent)

/-- The conversion from a stream item to the `Message` handed to the
callback, mirroring the five `Some(..)` match arms of the loop body
(gossip.rs lines 169-202). -/
def itemMessage : Except String GossipApiEvent → Message
  | .ok (.neighborUp n) => .neighborUp n
  | .ok (.neighborDown n) => .neighborDown n
  | .ok (.received c f) => .received c f
  | .ok .lagged => .lagged
  | .error e => .error e

/-- Model of the receiver task loop spawned by `Gossip::subscribe`
(gossip.rs lines 158-211).  `cb` is the foreign callback's `on_message`;
its result is only inspected to emit a warning (`warn!`), never to alter
control flow.  Returns the messages delivered to the callback, in
invocation order (each entry is exactly one completed `on_message` call:
the next stream item is only consumed after the previous call returned),
together with the warnings logged for failed callback invocations. -/
def receiver_loop (cb : Message → Except String Unit) :
    List LoopStep → List Message × List String
  | [] => ([], [])
  | (cancelReady, item) :: rest =>
    if cancelReady then
      ([], [])
    else
      match item with
      | none => ([], [])
      | some itm =>
        let m := itemMessage itm
        let r := receiver_loop cb rest
        match cb m with
        | .ok _ => (m :: r.1, r.2)
        | .error err => (m :: r.1, ("cb error, gossip: " ++ err) :: r.2)

/-- The loop-step trace of a stream that yields `events` in order and then
ends, with the cancellation token never cancelled. -/
def streamTrace (events : List (Except String GossipApiEvent)) : List LoopStep :=
  events.map (fun e => ((false : Bool), some e)) ++ [((false : Bool), none)]

/-! ## gossip.rs: Gossip::subscribe -/

/-- The externally observable resource-allocating effects of
`Gossip::subscribe`, in execution order. -/
inductive SubscribeEffect where
  | nativeSubscribe
  | spawnReceiverTask
deriving DecidableEq

/-- Model of `collect::<Result<Vec<EndpointId>, _>>()` over the bootstrap
list (gossip.rs lines 139-143): parse every entry, stopping at the first
error.  `parse` models `str::parse::<EndpointId>` of the external iroh
crate; parsed ids are opaque strings. -/
def parseBootstrapIds (parse : String → Except String String) :
    List String → Except String (List String)
  | [] => .ok []
  | b :: rest =>
    match parse b with
    | .error e => .error e
    | .ok id =>
      match parseBootstrapIds parse rest with
      | .error e => .error e
      | .ok ids => .ok (id :: ids)

/-- Model of `Gossip::subscribe` (gossip.rs lines 128-219).  `parse` models
endpoint-id parsing and `native` the external
`iroh_gossip::net::Gossip::subscribe` call (given the parsed bootstrap
ids).  Returns the list of performed effects together with the result:
validation failures return before any effect; a native subscription error
returns before the receiver task is spawned; on success the task is
spawned and a fresh (non-cancelled) `Sender` is returned. -/
def Gossip.subscribe (topic : List Nat) (bootstrap : List String)
    (parse : String → Except String String)
    (native : List String → Except String Unit) :
    List SubscribeEffect × Except String Sender :=
  if topic.length ≠ 32 then
    ([], .error "topic must be exactly 32 bytes")
  else
    match parseBootstrapIds parse bootstrap with
    | .error e => ([], .error e)
    | .ok ids =>
      match native ids with
      | .error e => ([.nativeSubscribe], .error e)
      | .ok _ =>
        ([.nativeSubscribe, .spawnReceiverTask], .ok { cancelled := false })

/-! ## node.rs: NodeOptions, apply_options and the constructors

External sub-services (file system, store loading, endpoint binding, docs
engine) are collaborators; their results are carried by a `NodeExternals`
record.  The protocol registrations accumulated on the
`iroh::protocol::RouterBuilder` are recorded as a list of ALPN tags in
registration order. -/

/-- Model of the `NodeDiscoveryConfig` enum (node.rs lines 262-287). -/
inductive NodeDiscoveryConfig where
  | none
  | default
deriving DecidableEq

/-- Model of `NodeOptions` (node.rs lines 184-212).  The blob-event
callback and the custom protocol creators are opaque foreign objects,
modelled by `Unit`; the `protocols` HashMap is an association list from
ALPN byte strings to creators. -/
structure NodeOptions where
  gc_interval_millis : Option Nat
  blob_events : Option Unit
  enable_docs : Bool
  ipv4_addr : Option String
  ipv6_addr : Option String
  node_discovery : Option NodeDiscoveryConfig
  secret_key : Option (List Nat)
  protocols : Option (List (List Nat × Unit))

/-- Model of `impl Default for NodeOptions` (node.rs lines 247-260). -/
def NodeOptions.default : NodeOptions where
  gc_interval_millis := some 0
  blob_events := none
  enable_docs := false
  ipv4_addr := none
  ipv6_addr := none
  node_discovery := none
  secret_key := none
  protocols := none

/-- Results of the external collaborator calls made during node
construction.  Each field is the outcome that call would produce. -/
structure NodeExternals where
  create_dir_all : Except String Unit
  docs_store_persistent : Except String Unit
  blobs_store_load : Except String Unit
  parse_ipv4 : String → Except String String
  parse_ipv6 : String → Except String String
  bind : Except String Unit
  docs_engine_spawn : Except String Unit

/-- Protocol tags registered on the router builder: the built-in ALPN
constants of the external crates are opaque; custom tags carry their
bytes. -/
inductive Alpn where
  | gossip
  | blobs
  | docs
  | custom (tag : List Nat)
deriving DecidableEq

/-- Discovery services configured on the endpoint builder (node.rs lines
442-450), in configuration order. -/
inductive DiscoveryService where
  | dnsN0
  | pkarrN0
  | staticProvider
deriving DecidableEq

/-- Model of the unused `_gc_period` computation in `apply_options`
(node.rs lines 420-427); a `Duration` is modelled by its milliseconds. -/
def gcPeriod (gc_interval_millis : Option Nat) : Option Nat :=
  match gc_interval_millis with
  | some 0 => none
  | some millis => some millis
  | none => none

/-- What `apply_options` returns on success: the router builder's
registered protocols plus the parts handed back to the constructor
(node.rs lines 412-417 and 504). -/
structure ApplyOptionsResult where
  alpns : List Alpn
  discovery : List DiscoveryService
  ipv4 : Option String
  ipv6 : Option String
  secret_key_set : Bool
  docs : Option Unit
deriving DecidableEq

/-- Parsing of an optional bind address (node.rs lines 431-437): when the
option is set, the address must parse, and the `?` operator propagates a
parse failure. -/
def parseOptAddr (parse : String → Except String String) :
    Option String → Except String (Option String)
  | some addr => (parse addr).map some
  | none => .ok none

/-- Discovery configuration (node.rs lines 442-450): `None` discovery uses
only the static provider, `Default` (explicit or absent) stacks DNS,
pkarr and the static provider. -/
def discoveryConfig : Option NodeDiscoveryConfig → List DiscoveryService
  | some NodeDiscoveryConfig.none => [DiscoveryService.staticProvider]
  | some NodeDiscoveryConfig.default | Option.none =>
    [DiscoveryService.dnsN0, DiscoveryService.pkarrN0,
      DiscoveryService.staticProvider]

/-- Secret-key installation (node.rs lines 452-456): the provided bytes are
converted to a 32-byte array (`try_into`, failing on any other length) and
installed; returns whether a key was set. -/
def secretKeyStep : Option (List Nat) → Except String Bool
  | some key =>
    if key.length = 32 then .ok true
    else .error "could not convert slice to array"
  | none => .ok false

/-- Docs engine setup (node.rs lines 473-492): when docs are enabled the
engine spawn is awaited with `?`, and the docs api is returned. -/
def docsStep (enable_docs : Bool) (spawn : Except String Unit) :
    Except String (Option Unit) :=
  if enable_docs then
    match spawn with
    | .error e => .error e
    | .ok _ => .ok (some ())
  else .ok none

/-- Model of `apply_options` (node.rs lines 406-505), in source order:
compute the (unused) gc period, map the blob-event callback, parse and set
the optional bind addresses, create the static provider, configure
discovery, install the optional secret key, bind the endpoint, register
gossip and blobs, optionally spawn the docs engine and register docs, then
register the custom protocols.  Every `?` in the source is a `match` whose
error arm returns the error. -/
def apply_options (options : NodeOptions) (ext : NodeExternals) :
    Except String ApplyOptionsResult :=
  let _gc_period := gcPeriod options.gc_interval_millis
  let _blob_events := options.blob_events.map (fun _ => ())
  match parseOptAddr ext.parse_ipv4 options.ipv4_addr with
  | .error e => .error e
  | .ok ipv4 =>
    match parseOptAddr ext.parse_ipv6 options.ipv6_addr with
    | .error e => .error e
    | .ok ipv6 =>
      let discovery := discoveryConfig options.node_discovery
      match secretKeyStep options.secret_key with
      | .error e => .error e
      | .ok secret_key_set =>
        match ext.bind with
        | .error e => .error e
        | .ok _ =>
          match docsStep options.enable_docs ext.docs_engine_spawn with
          | .error e => .error e
          | .ok docs =>
            let docsAlpns := if options.enable_docs then [Alpn.docs] else []
            let customAlpns :=
              (options.protocols.getD []).map (fun p => Alpn.custom p.1)
            .ok {
              alpns := [Alpn.gossip, Alpn.blobs] ++ docsAlpns ++ customAlpns
              discovery := discovery
              ipv4 := ipv4
              ipv6 := ipv6
              secret_key_set := secret_key_set
              docs := docs }

/-- Which kind of store the node was built over. -/
inductive StoreKind where
  | persistentStore
  | memStore
deriving DecidableEq

/-- Model of the `Iroh` handle (node.rs lines 290-297) as returned by the
constructors. -/
structure Iroh where
  router : ApplyOptionsResult
  store : StoreKind
  docs : Option Unit
deriving DecidableEq

/-- Model of `Iroh::memory_with_options` (node.rs lines 366-398): build the
in-memory stores (infallible), run `apply_options`, and only on success
spawn the router (`builder.spawn()`) and assemble the handle.  The boolean
records whether the router spawn was executed. -/
def memory_with_options (options : NodeOptions) (ext : NodeExternals) :
    Bool × Except String Iroh :=
  match apply_options options ext with
  | .error e => (false, .error e)
  | .ok res =>
    (true, .ok { router := res, store := .memStore, docs := res.docs })

/-- Model of `Iroh::persistent_with_options` (node.rs lines 321-363):
create the data directory, load the persistent docs store when docs are
enabled, load the blob store, run `apply_options`, and only on success
spawn the router and assemble the handle.  The boolean records whether the
router spawn was executed. -/
def persistent_with_options (options : NodeOptions) (ext : NodeExternals) :
    Bool × Except String Iroh :=
  match ext.create_dir_all with
  | .error e => (false, .error e)
  | .ok _ =>
    match
      (if options.enable_docs then ext.docs_store_persistent else .ok ()) with
    | .error e => (false, .error e)
    | .ok _ =>
      match ext.blobs_store_load with
      | .error e => (false, .error e)
      | .ok _ =>
        match apply_options options ext with
        | .error e => (false, .error e)
        | .ok res =>
          (true,
            .ok { router := res, store := .persistentStore, docs := res.docs })

/-- Model of `Iroh::memory` (node.rs lines 314-318). -/
def memory (ext : NodeExternals) : Bool × Except String Iroh :=
  memory_with_options NodeOptions.default ext

/-- Model of `Iroh::persistent` (node.rs lines 305-309). -/
def persistent (ext : NodeExternals) : Bool × Except String Iroh :=
  persistent_with_options NodeOptions.default ext

/-- An environment in which every external collaborator call succeeds;
used to exercise the construction theorems on a concrete input. -/
def extAllOk : NodeExternals where
  create_dir_all := .ok ()
  docs_store_persistent := .ok ()
  blobs_store_load := .ok ()
  parse_ipv4 := fun s => .ok s
  parse_ipv6 := fun s => .ok s
  bind := .ok ()
  docs_engine_spawn := .ok ()

/-! ## lib.rs: path_to_key and key_to_path

Paths are Unix paths; a `String` is its character sequence and a key
(`Vec<u8>` in the source) is modelled as a `List Char` — on valid UTF-8
data this is faithful: the appended `0` byte is the null character of
code 0 (a one-byte UTF-8 scalar, and no
multi-byte UTF-8 encoding ends in byte 0, so "last byte is 0" and "last
character is the null character" coincide), and `from_utf8` / `to_str` are
the identity on such data.  `std::path::Path` operations are modelled
component-wise as on Unix: components are the non-empty, non-`.` segments
between `/` separators, with a root component for absolute paths and a
leading current-directory component kept. -/

/-- The null character appended by `path_to_key` (byte 0). -/
def nullChar : Char := Char.ofNat 0

/-- Split a character list at every `/`, keeping empty segments: the model
of splitting a path string on the separator. -/
def splitSlash : List Char → List (List Char)
  | [] => [[]]
  | c :: rest =>
    let r := splitSlash rest
    if c = '/' then [] :: r
    else
      match r with
      | [] => [[c]]
      | h :: t => (c :: h) :: t

/-- Model of `std::path::Path::components` on Unix: a root component
(rendered `['/']`) for absolute paths, a current-directory component kept
only in leading position, and the remaining non-empty, non-`.`
segments. -/
def pathComponentsL (s : List Char) : List (List Char) :=
  let raw := splitSlash s
  let norm := raw.filter (fun c => decide (c ≠ [] ∧ c ≠ ['.']))
  match s with
  | '/' :: _ => ['/'] :: norm
  | _ =>
    match raw with
    | ['.'] :: _ => ['.'] :: norm
    | _ => norm

/-- Render a component list back to a path string (single separators, a
leading `/` for the root component). -/
def renderCompsL (l : List (List Char)) : List Char :=
  match l with
  | ['/'] :: rest => '/' :: List.intercalate ['/'] rest
  | _ => List.intercalate ['/'] l

/-- Model of `std::path::Path::strip_prefix` on Unix: succeeds iff the
base's components are a leading run of the path's components, returning
the remaining components as a path. -/
def pathStripBaseL (p base : List Char) : Option (List Char) :=
  let pc := pathComponentsL p
  let bc := pathComponentsL base
  if bc.isPrefixOf pc then some (renderCompsL (pc.drop bc.length))
  else none

/-- Model of `std::path::Path::join` on Unix: an absolute argument replaces
the base; otherwise the argument is appended, inserting a separator unless
the base is empty or already ends in one. -/
def pathJoinL (base rel : List Char) : List Char :=
  if rel.head? = some '/' then rel
  else if base = [] then rel
  else if base.getLast? = some '/' then base ++ rel
  else base ++ '/' :: rel

/-- Model of `str::trim_start_matches('/')`. -/
def trimSlashesL (s : List Char) : List Char :=
  s.dropWhile (fun c => c = '/')

/-- Model of `path_to_key` (lib.rs lines 113-142): strip the root from the
path when present (keeping the path unchanged if it is not under the
root), prepend the optional key namespace string, and append the null
byte.  `PathBuf::from` / `to_string_lossy` are the identity on valid
UTF-8. -/
def path_to_key (path : String) (pre root : Option String) : List Char :=
  let path_str :=
    match root with
    | some r =>
      match pathStripBaseL path.data r.data with
      | some stripped => stripped
      | none => path.data
    | none => path.data
  let key_str :=
    match pre with
    | some p => p.data ++ path_str
    | none => path_str
  key_str ++ [nullChar]

/-- Model of `key_to_path` (lib.rs lines 74-108): drop one trailing null
byte if present, decode (the identity in this model, where keys are
character lists), strip the optional key namespace string if it is a
leading run of the key, and re-attach the optional root as a parent after
trimming leading separators.  The UTF-8 and `to_str` failure paths of the
source cannot arise on character-list keys, so the result is always
`ok`. -/
def key_to_path (key : List Char) (pre root : Option String) :
    Except String String :=
  let k := if key.getLast? = some nullChar then key.dropLast else key
  let path_str :=
    match pre with
    | some p => if p.data.isPrefixOf k then k.drop p.data.length else k
    | none => k
  let path :=
    match root with
    | some r => pathJoinL r.data (trimSlashesL path_str)
    | none => path_str
  .ok (String.mk path)

end IrohFfi

namespace IrohFfi

/-- Helper: a successful optional-address parse of a set address yields a
successful parse of that address. -/
theorem parseOptAddr_ok_of_set (parse : String → Except String String)
    (a : String) (v : Option String)
    (h : parseOptAddr parse (some a) = .ok v) : ∃ w, parse a = .ok w := by
  cases hp : parse a with
  | error e =>
    simp only [parseOptAddr, hp, Except.map] at h
    exact Except.noConfusion h
  | ok w => exact ⟨w, rfl⟩

/-- Helper: installing a provided secret key succeeds only for 32-byte
keys. -/
theorem secretKeyStep_ok_of_set (k : List Nat) (b : Bool)
    (h : secretKeyStep (some k) = .ok b) : k.length = 32 := by
  by_cases hl : k.length = 32
  · exact hl
  · simp only [secretKeyStep, if_neg hl] at h
    exact Except.noConfusion h

/-- Helper: a successful docs step with docs enabled means the engine spawn
succeeded. -/
theorem docsStep_ok_enabled (spawn : Except String Unit) (d : Option Unit)
    (h : docsStep true spawn = .ok d) : spawn = .ok () := by
  cases hs : spawn with
  | error e =>
    simp only [docsStep, hs, if_true] at h
    exact Except.noConfusion h
  | ok u => cases u; rfl

/-- Helper: a successful `apply_options` requires every fallible step in it
to have succeeded. -/
theorem apply_options_ok (options : NodeOptions) (ext : NodeExternals)
    (r : ApplyOptionsResult) (h : apply_options options ext = .ok r) :
    (∃ v, parseOptAddr ext.parse_ipv4 options.ipv4_addr = .ok v) ∧
    (∃ v, parseOptAddr ext.parse_ipv6 options.ipv6_addr = .ok v) ∧
    (∃ b, secretKeyStep options.secret_key = .ok b) ∧
    ext.bind = .ok () ∧
    (∃ d, docsStep options.enable_docs ext.docs_engine_spawn = .ok d) := by
  cases h4 : parseOptAddr ext.parse_ipv4 options.ipv4_addr with
  | error e =>
    simp only [apply_options, h4] at h
    exact Except.noConfusion h
  | ok v4 =>
  cases h6 : parseOptAddr ext.parse_ipv6 options.ipv6_addr with
  | error e =>
    simp only [apply_options, h4, h6] at h
    exact Except.noConfusion h
  | ok v6 =>
  cases hk : secretKeyStep options.secret_key with
  | error e =>
    simp only [apply_options, h4, h6, hk] at h
    exact Except.noConfusion h
  | ok b =>
  cases hb : ext.bind with
  | error e =>
    simp only [apply_options, h4, h6, hk, hb] at h
    exact Except.noConfusion h
  | ok u =>
  cases hd : docsStep options.enable_docs ext.docs_engine_spawn with
  | error e =>
    simp only [apply_options, h4, h6, hk, hb, hd] at h
    exact Except.noConfusion h
  | ok d =>
  cases u
  exact ⟨⟨v4, rfl⟩, ⟨v6, rfl⟩, ⟨b, rfl⟩, rfl, ⟨d, rfl⟩⟩

end IrohFfi

namespace IrohFfi

/-- Helper: persistent construction spawns the router exactly when it
returns a node handle. -/
theorem persistent_spawn_iff (options : NodeOptions) (ext : NodeExternals) :
    (persistent_with_options options ext).1 = true ↔
      ∃ n, (persistent_with_options options ext).2 = .ok n := by
  unfold persistent_with_options
  cases ext.create_dir_all with
  | error e => simp
  | ok u =>
    cases (if options.enable_docs then ext.docs_store_persistent else .ok ()) with
    | error e => simp
    | ok v =>
      cases ext.blobs_store_load with
      | error e => simp
      | ok w =>
        cases apply_options options ext with
        | error e => simp
        | ok res => simp

/-- Helper: in-memory construction spawns the router exactly when it
returns a node handle. -/
theorem memory_spawn_iff (options : NodeOptions) (ext : NodeExternals) :
    (memory_with_options options ext).1 = true ↔
      ∃ n, (memory_with_options options ext).2 = .ok n := by
  unfold memory_with_options
  cases apply_options options ext with
  | error e => simp
  | ok res => simp

/-- Helper: a returned persistent node handle implies every sub-service
initialization step succeeded. -/
theorem persistent_ok_steps (options : NodeOptions) (ext : NodeExternals)
    (n : Iroh) (h : (persistent_with_options options ext).2 = .ok n) :
    ext.create_dir_all = .ok () ∧
    (options.enable_docs = true → ext.docs_store_persistent = .ok ()) ∧
    ext.blobs_store_load = .ok () ∧
    ∃ r, apply_options options ext = .ok r := by
  cases hc : ext.create_dir_all with
  | error e =>
    simp only [persistent_with_options, hc] at h
    exact Except.noConfusion h
  | ok u =>
  cases u
  cases hdoc : (if options.enable_docs then ext.docs_store_persistent else .ok ()) with
  | error e =>
    simp only [persistent_with_options, hc, hdoc] at h
    exact Except.noConfusion h
  | ok v =>
  cases v
  cases hbl : ext.blobs_store_load with
  | error e =>
    simp only [persistent_with_options, hc, hdoc, hbl] at h
    exact Except.noConfusion h
  | ok w =>
  cases w
  cases ha : apply_options options ext with
  | error e =>
    simp only [persistent_with_options, hc, hdoc, hbl, ha] at h
    exact Except.noConfusion h
  | ok res =>
    refine ⟨rfl, ?_, rfl, ⟨res, rfl⟩⟩
    intro hd
    rw [if_pos hd] at hdoc
    exact hdoc

end IrohFfi

namespace IrohFfi

/-- C1: the claim says every `broadcast` / `broadcast_neighbors` call on a
cancelled Sender returns an error; evaluating the code at the failing
input shows otherwise: after a successful `cancel()` both broadcast
operations still return `ok` whenever the underlying gossip send succeeds,
because neither consults the cancellation token. -/
theorem c1_broadcast_after_cancel_succeeds :
    ∃ s' : Sender, Sender.cancel { cancelled := false } = .ok s' ∧
      s'.cancelled = true ∧
      s'.broadcast (.ok ()) = .ok () ∧
      s'.broadcast_neighbors (.ok ()) = .ok () :=
  ⟨{ cancelled := true }, rfl, rfl, rfl, rfl⟩

/-- C3: for a subscription whose native stream yields a finite sequence of
events in order and then ends, with no cancellation, the callback is
invoked exactly once per event, in stream order (the delivered list of
`receiver_loop` is the per-event message list; its sequential recursion is
the loop's one-at-a-time processing, fetching the next item only after the
previous `on_message` call returned). -/
theorem c3_callback_in_order_once (cb : Message → Except String Unit)
    (events : List (Except String GossipApiEvent)) :
    (receiver_loop cb (streamTrace events)).1 = events.map itemMessage := by
  induction events with
  | nil => rfl
  | cons e rest ih =>
    show (receiver_loop cb (((false : Bool), some e) :: streamTrace rest)).1 = _
    simp only [receiver_loop, List.map_cons]
    cases cb (itemMessage e) <;> simp [ih]

/-- C4: the messages delivered by the receiver loop do not depend on the
callback's results: a callback error on any event never stops the loop,
and every later stream event is still delivered. -/
theorem c4_callback_failure_does_not_stop_loop
    (cb cb' : Message → Except String Unit) (steps : List LoopStep) :
    (receiver_loop cb steps).1 = (receiver_loop cb' steps).1 := by
  induction steps with
  | nil => rfl
  | cons s rest ih =>
    obtain ⟨c, item⟩ := s
    cases c with
    | true => rfl
    | false =>
      cases item with
      | none => rfl
      | some itm =>
        simp only [receiver_loop]
        cases cb (itemMessage itm) <;> cases cb' (itemMessage itm) <;>
          simp [ih]

/-- C5: once the cancellation branch of the biased select fires, the loop
stops without delivering anything further: even an event that is ready at
that very iteration, and all events after it, are discarded. -/
theorem c5_cancellation_stops_deliveries (cb : Message → Except String Unit)
    (steps rest : List LoopStep)
    (item : Option (Except String GossipApiEvent)) :
    receiver_loop cb (steps ++ ((true : Bool), item) :: rest) =
      receiver_loop cb steps := by
  induction steps with
  | nil => rfl
  | cons s p ih =>
    obtain ⟨c, it⟩ := s
    cases c with
    | true => rfl
    | false =>
      cases it with
      | none => rfl
      | some itm =>
        simp only [List.cons_append, receiver_loop]
        cases cb (itemMessage itm) <;> simp [ih]

/-- C6: on a fresh Sender (token live) `cancel()` succeeds and moves the
token to cancelled; after any successful `cancel()` every further
`cancel()` call returns the `already closed` error. -/
theorem c6_cancel_once (s s' : Sender) :
    Sender.cancel { cancelled := false } = .ok { cancelled := true } ∧
    (Sender.cancel s = .ok s' → Sender.cancel s' = .error "already closed") := by
  refine ⟨rfl, ?_⟩
  intro h
  cases hc : s.cancelled with
  | true => simp only [Sender.cancel, hc, if_true] at h; exact Except.noConfusion h
  | false =>
    have hcall : Sender.cancel s = .ok { cancelled := true } := by
      simp [Sender.cancel, hc]
    rw [hcall] at h
    injection h with h2
    rw [← h2]
    rfl

/-- Witness for C6 at a concrete Sender: the second cancel fails. -/
theorem c6_cancel_once_witness :
    Sender.cancel { cancelled := true } = .error "already closed" :=
  (c6_cancel_once { cancelled := false } { cancelled := true }).2 rfl

/-- C7: each `as_*` accessor returns exactly the active variant's payload
and panics (modelled `none`) on every other variant. -/
theorem c7_variant_accessors (m : Message) :
    (∀ s, m = .neighborUp s → m.as_neighbor_up = some s) ∧
    (m.type ≠ .neighborUp → m.as_neighbor_up = none) ∧
    (∀ s, m = .neighborDown s → m.as_neighbor_down = some s) ∧
    (m.type ≠ .neighborDown → m.as_neighbor_down = none) ∧
    (∀ c f, m = .received c f →
      m.as_received = some { content := c, delivered_from := f }) ∧
    (m.type ≠ .received → m.as_received = none) ∧
    (∀ s, m = .error s → m.as_error = some s) ∧
    (m.type ≠ .error → m.as_error = none) := by
  cases m <;>
    refine ⟨?_, ?_, ?_, ?_, ?_, ?_, ?_, ?_⟩ <;>
      intros <;>
        simp_all [Message.type, Message.as_neighbor_up,
          Message.as_neighbor_down, Message.as_received, Message.as_error]

/-- Witness for C7 at concrete messages: the matching accessor returns the
payload, the mismatched accessor rejects. -/
theorem c7_variant_accessors_witness :
    (Message.received [104, 105] "peer1").as_received =
      some { content := [104, 105], delivered_from := "peer1" } ∧
    Message.lagged.as_received = none :=
  ⟨(c7_variant_accessors (Message.received [104, 105] "peer1")).2.2.2.2.1
      [104, 105] "peer1" rfl,
    (c7_variant_accessors Message.lagged).2.2.2.2.2.1 (by decide)⟩

end IrohFfi

namespace IrohFfi

/-- Helper: if some bootstrap entry fails to parse, collecting the parses
fails. -/
theorem parseBootstrapIds_error_of_mem (parse : String → Except String String)
    (l : List String) (h : ∃ b ∈ l, ∃ e, parse b = .error e) :
    ∃ e, parseBootstrapIds parse l = .error e := by
  induction l with
  | nil =>
    rcases h with ⟨b, hb, _⟩
    cases hb
  | cons x rest ih =>
    cases hx : parse x with
    | error e => exact ⟨e, by simp [parseBootstrapIds, hx]⟩
    | ok id =>
      rcases h with ⟨b, hb, e, he⟩
      rcases List.mem_cons.mp hb with rfl | hbr
      · rw [hx] at he
        exact Except.noConfusion he
      · rcases ih ⟨b, hbr, e, he⟩ with ⟨e', he'⟩
        exact ⟨e', by simp [parseBootstrapIds, hx, he']⟩

/-- C2: a topic whose length is not 32 bytes, or a bootstrap entry that
does not parse as a peer identifier, makes `subscribe` return an error
with no effect performed: the native gossip subscription is never created
and no receiver task is spawned. -/
theorem c2_validation_before_any_effect (topic : List Nat)
    (bootstrap : List String) (parse : String → Except String String)
    (native : List String → Except String Unit)
    (h : topic.length ≠ 32 ∨ ∃ b ∈ bootstrap, ∃ e, parse b = .error e) :
    (Gossip.subscribe topic bootstrap parse native).1 = [] ∧
    ∃ e, (Gossip.subscribe topic bootstrap parse native).2 = .error e := by
  by_cases hlen : topic.length = 32
  · have hb : ∃ b ∈ bootstrap, ∃ e, parse b = .error e := by
      rcases h with hne | hb
      · exact absurd hlen hne
      · exact hb
    rcases parseBootstrapIds_error_of_mem parse bootstrap hb with ⟨e, he⟩
    constructor
    · simp [Gossip.subscribe, hlen, he]
    · exact ⟨e, by simp [Gossip.subscribe, hlen, he]⟩
  · constructor
    · simp [Gossip.subscribe, hlen]
    · exact ⟨"topic must be exactly 32 bytes", by simp [Gossip.subscribe, hlen]⟩

/-- Witness for C2 at a concrete invalid call: empty topic, no bootstrap. -/
theorem c2_validation_before_any_effect_witness :
    (Gossip.subscribe [] [] (fun s => Except.ok s)
        (fun _ => Except.ok ())).1 = [] ∧
    ∃ e, (Gossip.subscribe [] [] (fun s => Except.ok s)
        (fun _ => Except.ok ())).2 = .error e :=
  c2_validation_before_any_effect [] [] (fun s => Except.ok s)
    (fun _ => Except.ok ()) (Or.inl (by decide))

/-- C8: both constructors are atomic: the router is spawned exactly when a
node handle is returned, and a returned handle implies every sub-service
initialization step (directory creation, store loading, address parsing,
secret-key installation, endpoint binding, docs engine spawn) succeeded.
Contrapositively, if any of those steps fails, the constructor returns an
error, no router is spawned, and no handle is returned. -/
theorem c8_construction_atomic (options : NodeOptions) (ext : NodeExternals) :
    ((persistent_with_options options ext).1 = true ↔
      ∃ n, (persistent_with_options options ext).2 = .ok n) ∧
    ((memory_with_options options ext).1 = true ↔
      ∃ n, (memory_with_options options ext).2 = .ok n) ∧
    (∀ n, (persistent_with_options options ext).2 = .ok n →
      ext.create_dir_all = .ok () ∧
      (options.enable_docs = true → ext.docs_store_persistent = .ok ()) ∧
      ext.blobs_store_load = .ok () ∧
      ext.bind = .ok () ∧
      (options.enable_docs = true → ext.docs_engine_spawn = .ok ()) ∧
      (∀ a ∈ options.ipv4_addr, ∃ v, ext.parse_ipv4 a = .ok v) ∧
      (∀ a ∈ options.ipv6_addr, ∃ v, ext.parse_ipv6 a = .ok v) ∧
      (∀ k ∈ options.secret_key, k.length = 32)) ∧
    (∀ n, (memory_with_options options ext).2 = .ok n →
      ext.bind = .ok () ∧
      (options.enable_docs = true → ext.docs_engine_spawn = .ok ()) ∧
      (∀ a ∈ options.ipv4_addr, ∃ v, ext.parse_ipv4 a = .ok v) ∧
      (∀ a ∈ options.ipv6_addr, ∃ v, ext.parse_ipv6 a = .ok v) ∧
      (∀ k ∈ options.secret_key, k.length = 32)) := by
  have mainOf : ∀ r, apply_options options ext = .ok r →
      ext.bind = .ok () ∧
      (options.enable_docs = true → ext.docs_engine_spawn = .ok ()) ∧
      (∀ a ∈ options.ipv4_addr, ∃ v, ext.parse_ipv4 a = .ok v) ∧
      (∀ a ∈ options.ipv6_addr, ∃ v, ext.parse_ipv6 a = .ok v) ∧
      (∀ k ∈ options.secret_key, k.length = 32) := by
    intro r hr
    obtain ⟨⟨v4, h4⟩, ⟨v6, h6⟩, ⟨b, hk⟩, hbind, ⟨d, hd⟩⟩ :=
      apply_options_ok options ext r hr
    refine ⟨hbind, ?_, ?_, ?_, ?_⟩
    · intro hdocs
      rw [hdocs] at hd
      exact docsStep_ok_enabled ext.docs_engine_spawn d hd
    · intro a ha
      cases hva : options.ipv4_addr with
      | none => rw [hva] at ha; cases ha
      | some a' =>
        rw [hva] at ha
        cases ha
        rw [hva] at h4
        exact parseOptAddr_ok_of_set ext.parse_ipv4 a v4 h4
    · intro a ha
      cases hva : options.ipv6_addr with
      | none => rw [hva] at ha; cases ha
      | some a' =>
        rw [hva] at ha
        cases ha
        rw [hva] at h6
        exact parseOptAddr_ok_of_set ext.parse_ipv6 a v6 h6
    · intro k hkk
      cases hks : options.secret_key with
      | none => rw [hks] at hkk; cases hkk
      | some k' =>
        rw [hks] at hkk
        cases hkk
        rw [hks] at hk
        exact secretKeyStep_ok_of_set k b hk
  refine ⟨persistent_spawn_iff options ext, memory_spawn_iff options ext, ?_, ?_⟩
  · intro n hn
    obtain ⟨hc, hdoc, hbl, ⟨r, hr⟩⟩ := persistent_ok_steps options ext n hn
    obtain ⟨hbind, hspawn, h4, h6, hkey⟩ := mainOf r hr
    exact ⟨hc, hdoc, hbl, hbind, hspawn, h4, h6, hkey⟩
  · intro n hn
    have hr : ∃ r, apply_options options ext = .ok r := by
      cases ha : apply_options options ext with
      | error e =>
        simp only [memory_with_options, ha] at hn
        exact Except.noConfusion hn
      | ok r => exact ⟨r, rfl⟩
    obtain ⟨r, hr⟩ := hr
    exact mainOf r hr

/-- Witness for C8: with every external step succeeding, the default
persistent construction returns a handle and the theorem's consequents
evaluate at it. -/
theorem c8_construction_atomic_witness :
    (persistent_with_options NodeOptions.default extAllOk).1 = true ∧
    extAllOk.bind = .ok () :=
  ⟨(c8_construction_atomic NodeOptions.default extAllOk).1.mpr ⟨_, rfl⟩,
    ((c8_construction_atomic NodeOptions.default extAllOk).2.2.1 _ rfl).2.2.2.1⟩

/-- C9: two option records that differ only in `gc_interval_millis`
construct identical nodes, both persistent and in-memory: the option is
parsed (`gcPeriod`) but wired to nothing. -/
theorem c9_gc_interval_inert (options : NodeOptions) (ext : NodeExternals)
    (g g' : Option Nat) :
    persistent_with_options { options with gc_interval_millis := g } ext =
      persistent_with_options { options with gc_interval_millis := g' } ext ∧
    memory_with_options { options with gc_interval_millis := g } ext =
      memory_with_options { options with gc_interval_millis := g' } ext :=
  ⟨rfl, rfl⟩

end IrohFfi

namespace IrohFfi

/-- C10 counterexample: with the same root `/r` passed to both calls and a
path `/r//a` that lies under that root, the roundtrip returns the
normalized `/r/a`, not the original path — the claimed inverse fails for
a consistently applied non-`None` root. -/
theorem c10_root_counterexample :
    key_to_path (path_to_key "/r//a" none (some "/r")) none (some "/r") =
      .ok "/r/a" ∧ ("/r/a" : String) ≠ "/r//a" :=
  ⟨rfl, by decide⟩

/-- C10 (amended): for every path with no null byte and every consistently
applied key namespace string, with root = None, the roundtrip is the
identity: `path_to_key` appends exactly one trailing null byte,
`key_to_path` removes it and strips the namespace string back off. -/
theorem c10_roundtrip_root_none (path : String) (pre : Option String)
    (hnull : nullChar ∉ path.data) :
    key_to_path (path_to_key path pre none) pre none = .ok path := by
  cases pre with
  | none =>
    show key_to_path (path.data ++ [nullChar]) none none = .ok path
    unfold key_to_path
    rw [List.getLast?_concat, if_pos rfl, List.dropLast_concat]
  | some p =>
    show key_to_path ((p.data ++ path.data) ++ [nullChar]) (some p) none =
      .ok path
    unfold key_to_path
    rw [List.getLast?_concat, if_pos rfl, List.dropLast_concat]
    have hpre : p.data.isPrefixOf (p.data ++ path.data) = true :=
      List.isPrefixOf_iff_prefix.mpr (List.prefix_append p.data path.data)
    simp only [hpre, if_true, List.drop_left]

/-- Witness for C10 (amended) at a concrete path and namespace string. -/
theorem c10_roundtrip_root_none_witness :
    key_to_path (path_to_key "/foo/bar" (some "key:") none)
      (some "key:") none = .ok "/foo/bar" :=
  c10_roundtrip_root_none "/foo/bar" (some "key:") (by decide)

end IrohFfi
